import Mathlib

/-!
Verification of the natural-language specification of the
`your-music-backend` service against its source.

The repository contains three near-duplicate Express servers:
  * `src/server.js`, first document (YouTube search + ffmpeg pipeline);
  * `src/server.js`, second document (SoundCloud search, local `audio/`
    artifact store, `exec`-based yt-dlp converter) — the variant the
    download-related claims cite by line number (432-557);
  * `src/unnamed/part_000` (SoundCloud search with a one-hour NodeCache,
    Firebase Storage artifact store).

This file shallowly embeds the handlers those claims are about:
external subprocess outcomes (`exec` callbacks), JSON parsing and the
HTTP layer are modelled as explicit inputs/oracles; the filesystem is a
`String → Bool` existence map; responses are records carrying the HTTP
status, the `success` flag, the message and payload fields the handlers
produce.
-/

/- ### JavaScript string primitives used by the handlers -/

/-- Boolean list-prefix test (`pat` is a prefix of the second list). -/
def listIsPref : List Char → List Char → Bool
  | [], _ => true
  | _ :: _, [] => false
  | p :: ps, h :: hs => p == h && listIsPref ps hs

/-- Substring search on character lists: does the pattern occur anywhere? -/
def listHasSub : List Char → List Char → Bool
  | [], ps => listIsPref ps []
  | h :: t, ps => listIsPref ps (h :: t) || listHasSub t ps

/-- Model of JavaScript `String.prototype.includes`. -/
def strContains (s pat : String) : Bool :=
  listHasSub s.data pat.data

/-- Model of the JavaScript truthiness chain `a || b` on a possibly-missing
string field: `undefined`/`null` and the empty string fall through. -/
def jsOrStr (a : Option String) (b : String) : String :=
  match a with
  | none => b
  | some s => if s = "" then b else s

/-- Truthiness of a possibly-missing string field. -/
def jsTruthy : Option String → Bool
  | none => false
  | some s => s != ""

/-- Character-exact model of JavaScript `s.split('\n')`: always returns at
least one (possibly empty) piece. -/
def splitNlChars : List Char → List (List Char)
  | [] => [[]]
  | c :: t =>
    match splitNlChars t with
    | [] => [[c]]
    | h :: r => if c = '\n' then [] :: h :: r else (c :: h) :: r

/-- JavaScript `s.split('\n')` on strings. -/
def jsSplitNl (s : String) : List String :=
  (splitNlChars s.data).map String.mk

/-- Whitespace as stripped by JavaScript `String.prototype.trim` (the
ASCII part, which is all the handlers' data contains). -/
def isWsChar (c : Char) : Bool :=
  c = ' ' || c = '\t' || c = '\n' || c = '\r' || c = '\x0b' || c = '\x0c'

/-- Model of JavaScript `s.trim()`. -/
def jsTrim (s : String) : String :=
  String.mk (((s.data.dropWhile isWsChar).reverse.dropWhile isWsChar).reverse)

/- ### The fingerprint function: MD5 (crypto.createHash('md5')...digest('hex'))

The handlers derive every artifact filename from
`crypto.createHash('md5').update(url).digest('hex')`.  MD5 itself lives in
Node's crypto library, outside the repository; it is embedded here from the
standard MD5 definition (RFC 1321): UTF-8 bytes, merkle-damgard padding,
64-round compression on four 32-bit words, little-endian hex digest. -/

/-- UTF-8 encoding of one character (what `hash.update(url)` consumes). -/
def utf8Char (c : Char) : List Nat :=
  let n := c.toNat
  if n < 128 then [n]
  else if n < 2048 then [192 + n / 64, 128 + n % 64]
  else if n < 65536 then [224 + n / 4096, 128 + (n / 64) % 64, 128 + n % 64]
  else [240 + n / 262144, 128 + (n / 4096) % 64, 128 + (n / 64) % 64, 128 + n % 64]

/-- UTF-8 bytes of a string. -/
def utf8Bytes (s : String) : List Nat :=
  s.data.foldr (fun c acc => utf8Char c ++ acc) []

/-- Little-endian byte decomposition, fixed width `n`. -/
def leBytes : Nat → Nat → List Nat
  | 0, _ => []
  | n + 1, x => x % 256 :: leBytes n (x / 256)

/-- Bitwise complement within 32 bits. -/
def compl32 (x : Nat) : Nat := (x % 4294967296) ^^^ 4294967295

/-- Left-rotation of a 32-bit word. -/
def rotl32 (x n : Nat) : Nat :=
  ((x <<< n) ||| (x >>> (32 - n))) % 4294967296

/-- The 64 MD5 sine-derived round constants. -/
def md5K : List Nat :=
  [0xd76aa478, 0xe8c7b756, 0x242070db, 0xc1bdceee,
   0xf57c0faf, 0x4787c62a, 0xa8304613, 0xfd469501,
   0x698098d8, 0x8b44f7af, 0xffff5bb1, 0x895cd7be,
   0x6b901122, 0xfd987193, 0xa679438e, 0x49b40821,
   0xf61e2562, 0xc040b340, 0x265e5a51, 0xe9b6c7aa,
   0xd62f105d, 0x02441453, 0xd8a1e681, 0xe7d3fbc8,
   0x21e1cde6, 0xc33707d6, 0xf4d50d87, 0x455a14ed,
   0xa9e3e905, 0xfcefa3f8, 0x676f02d9, 0x8d2a4c8a,
   0xfffa3942, 0x8771f681, 0x6d9d6122, 0xfde5380c,
   0xa4beea44, 0x4bdecfa9, 0xf6bb4b60, 0xbebfbc70,
   0x289b7ec6, 0xeaa127fa, 0xd4ef3085, 0x04881d05,
   0xd9d4d039, 0xe6db99e5, 0x1fa27cf8, 0xc4ac5665,
   0xf4292244, 0x432aff97, 0xab9423a7, 0xfc93a039,
   0x655b59c3, 0x8f0ccc92, 0xffeff47d, 0x85845dd1,
   0x6fa87e4f, 0xfe2ce6e0, 0xa3014314, 0x4e0811a1,
   0xf7537e82, 0xbd3af235, 0x2ad7d2bb, 0xeb86d391]

/-- The MD5 per-round left-rotation amounts. -/
def md5Shift : List Nat :=
  [7, 12, 17, 22, 7, 12, 17, 22, 7, 12, 17, 22, 7, 12, 17, 22,
   5, 9, 14, 20, 5, 9, 14, 20, 5, 9, 14, 20, 5, 9, 14, 20,
   4, 11, 16, 23, 4, 11, 16, 23, 4, 11, 16, 23, 4, 11, 16, 23,
   6, 10, 15, 21, 6, 10, 15, 21, 6, 10, 15, 21, 6, 10, 15, 21]

/-- The MD5 round mixing function (round selected by `i`). -/
def md5F (i b c d : Nat) : Nat :=
  if i < 16 then (b &&& c) ||| (compl32 b &&& d)
  else if i < 32 then (d &&& b) ||| (compl32 d &&& c)
  else if i < 48 then b ^^^ c ^^^ d
  else c ^^^ (b ||| compl32 d)

/-- The MD5 message-word schedule. -/
def md5G (i : Nat) : Nat :=
  if i < 16 then i
  else if i < 32 then (5 * i + 1) % 16
  else if i < 48 then (3 * i + 5) % 16
  else (7 * i) % 16

/-- One MD5 round on the running state `(a, b, c, d)`. -/
def md5Step (M : List Nat) (st : Nat × Nat × Nat × Nat) (i : Nat) :
    Nat × Nat × Nat × Nat :=
  let a := st.1
  let b := st.2.1
  let c := st.2.2.1
  let d := st.2.2.2
  let f := (md5F i b c d + a + md5K.getD i 0 + M.getD (md5G i) 0) % 4294967296
  (d, (b + rotl32 f (md5Shift.getD i 0)) % 4294967296, b, c)

/-- Little-endian 32-bit word from (up to) four bytes. -/
def leWord (l : List Nat) : Nat :=
  l.getD 0 0 + 256 * l.getD 1 0 + 65536 * l.getD 2 0 + 16777216 * l.getD 3 0

/-- Process one 64-byte chunk. -/
def md5Chunk (st : Nat × Nat × Nat × Nat) (chunk : List Nat) :
    Nat × Nat × Nat × Nat :=
  let M := (List.range 16).map (fun j => leWord ((chunk.drop ( 4 * j)).take 4))
  let r := (List.range 64).foldl (md5Step M) st
  ((st.1 + r.1) % 4294967296, (st.2.1 + r.2.1) % 4294967296,
   (st.2.2.1 + r.2.2.1) % 4294967296, (st.2.2.2 + r.2.2.2) % 4294967296)

/-- MD5 padding: a 0x80 byte, zeros to 56 mod 64, then the bit length as a
little-endian 64-bit quantity. -/
def md5Pad (msg : List Nat) : List Nat :=
  let z := (119 - msg.length % 64) % 64
  msg ++ 128 :: (List.replicate z 0 ++ leBytes 8 ((msg.length * 8) % 18446744073709551616))

/-- Split a (padded) byte list into 64-byte chunks. -/
def toChunks (l : List Nat) : List (List Nat) :=
  (List.range (l.length / 64)).map (fun i => (l.drop (64 * i)).take 64)

/-- The MD5 initial state. -/
def md5Init : Nat × Nat × Nat × Nat :=
  (0x67452301, 0xefcdab89, 0x98badcfe, 0x10325476)

/-- The 16-byte MD5 digest of a string. -/
def md5Digest (s : String) : List Nat :=
  let r := (toChunks (md5Pad (utf8Bytes s))).foldl md5Chunk md5Init
  leBytes 4 r.1 ++ leBytes 4 r.2.1 ++ leBytes 4 r.2.2.1 ++ leBytes 4 r.2.2.2

/-- The sixteen lowercase hex digits, as `digest('hex')` renders nibbles:
codepoints 48-57 for 0-9, then 97-102 for a-f. -/
def hexChars : List Char :=
  (List.range 16).map fun n =>
    if n < 10 then Char.ofNat (48 + n) else Char.ofNat (87 + n)

/-- Hex digit of a nibble. -/
def hexDigit (n : Nat) : Char := hexChars.getD (n % 16) '0'

/-- Two-digits-per-byte lowercase hex rendering (`digest('hex')`). -/
def hexOfBytes : List Nat → List Char
  | [] => []
  | b :: bs => hexDigit (b / 16) :: hexDigit (b % 16) :: hexOfBytes bs

/-- The fingerprint function used by every download handler:
`crypto.createHash('md5').update(url).digest('hex')`. -/
def md5Hex (s : String) : String := String.mk (hexOfBytes (md5Digest s))

/- ### Shared subprocess / JSON modelling -/

/-- Outcome of a `child_process.exec` invocation: the error branch carries
`error.message` and the diagnostic `stderr` text; the success branch carries
`stdout` and (non-fatal) `stderr`. -/
inductive ExecOut where
  | err (msg stderr : String)
  | ok (stdout stderr : String)

/-- The `--print-json` / `--dump-json` metadata object fields the handlers
read (`JSON.parse` succeeded).  A missing JSON field is `none`; a thumbnail
array element's missing `url` is an inner `none`. -/
structure MetaJson where
  title : String
  uploader : Option String
  channel : Option String
  webpageUrl : String
  thumbnails : Option (List (Option String))
  extractorKey : Option String

/-- The handlers' thumbnail selection:
`metadata.thumbnails ? metadata.thumbnails[metadata.thumbnails.length - 1]?.url : null`. -/
def thumbOf (md : MetaJson) : Option String :=
  match md.thumbnails with
  | none => none
  | some ts =>
    match ts.getLast? with
    | none => none
    | some u => u

/-- The artist fallback chain `metadata.uploader || metadata.channel || 'Unknown'`. -/
def artistOf (md : MetaJson) : String :=
  jsOrStr md.uploader (jsOrStr md.channel "Unknown")

/- ### POST /download-mp3, src/server.js lines 432-557 (SoundCloud variant) -/

/-- The dedicated working directory `path.join(__dirname, 'audio')` of the
server.js download handler (modelled relative to `__dirname`). -/
def audioDir : String := "audio"

/-- The fingerprint-derived artifact filename `${hash}.mp3`. -/
def dlFileName (url : String) : String := md5Hex url ++ ".mp3"

/-- The converter target `path.join(audioDir, outputFileName)`. -/
def dlPath (url : String) : String := audioDir ++ "/" ++ dlFileName url

/-- The public artifact URL `https://${req.hostname}/audio/${outputFileName}`. -/
def publicAudioUrl (host url : String) : String :=
  "https://" ++ host ++ "/audio/" ++ dlFileName url

/-- First-match-wins classification of a failed converter invocation
(src/server.js lines 502-518; identical chain in src/unnamed/part_000
lines 238-254).  `emsg` is `error.message`, `stderr` the diagnostic text. -/
def classifyDlError (emsg stderr : String) : String :=
  if strContains stderr "Sign in to confirm you\x27re not a bot"
      || strContains stderr "Please log in" then
    "Download blocked by source website (bot detection/login required)."
  else if strContains stderr "No such video" || strContains stderr "Private video"
      || strContains stderr "unavailable" then
    "Track not found, unavailable, or is private."
  else if strContains stderr "Unsupported URL" then
    "Unsupported URL for download. Please ensure it is a valid video/audio page."
  else if strContains stderr "timed out" then
    "Download timed out. The server might be too slow or network issues."
  else if strContains stderr "no such option" then
    "An unsupported yt-dlp option was used. Please check backend logs or update yt-dlp."
  else if strContains stderr "RateLimitExceeded" then
    "Source website rate limit exceeded. Please try again later."
  else if strContains stderr "ffprobe" || strContains stderr "ffmpeg" then
    "Audio conversion tools (ffmpeg/ffprobe) not found or not working on server. Check server setup."
  else
    "Failed to download or convert: " ++ emsg

/-- JSON body of a /download-mp3 response, together with its HTTP status.
`res.json(...)` without an explicit status is status 200. -/
structure DlResp where
  status : Nat
  success : Bool
  message : String
  audioUrl : Option String
  title : Option String
  artist : Option String
  thumbnail : Option String
  stderrOut : Option String

/-- Result of one handler run: the response sent, the final state of the
working directory (existence map over paths), and how many converter
(`yt-dlp -x`) and metadata (`yt-dlp --print-json`) subprocesses ran. -/
structure DlOut where
  resp : DlResp
  store : String → Bool
  convInv : Nat
  metaInv : Nat

/-- Shallow embedding of the POST /download-mp3 handler of src/server.js
(lines 432-557).  Oracles: `store` is the `fs` existence map at request
start; `convRes` the converter `exec` outcome (consulted only if the
converter is invoked); `leftover` whether a failed converter left a partial
file at the target path; `metaRes` the metadata `exec` outcome; `parse` the
`JSON.parse` oracle for the metadata stdout.  The embedding computes fs
updates in program order, so the final `store` reflects the state at the
moment the response is sent. -/
def downloadHandler (host : String) (urlField : Option String)
    (store : String → Bool) (convRes : ExecOut) (leftover : Bool)
    (metaRes : ExecOut) (parse : String → Option MetaJson) : DlOut :=
  match urlField with
  | none =>
    ⟨⟨400, false, "Source URL is required for download.", none, none, none, none, none⟩,
     store, 0, 0⟩
  | some url =>
    let filePath := dlPath url
    let pubUrl := publicAudioUrl host url
    if store filePath then
      -- lines 449-481: artifact already present; only the metadata
      -- subprocess runs, the converter is never invoked
      match metaRes with
      | .err _ _ =>
        ⟨⟨200, true, "Audio already processed and available.", some pubUrl,
          some ("Previously Downloaded Track (ID: " ++ (md5Hex url).take 8 ++ ")"),
          some "Unknown", none, none⟩, store, 0, 1⟩
      | .ok out _ =>
        match parse out with
        | some md =>
          ⟨⟨200, true, "Audio already processed and available.", some pubUrl,
            some md.title, some (artistOf md), thumbOf md, none⟩, store, 0, 1⟩
        | none =>
          ⟨⟨500, false, "Failed to parse metadata for existing file.",
            none, none, none, none, none⟩, store, 0, 1⟩
    else
      match convRes with
      | .err emsg stderr =>
        -- lines 492-519: the converter may have left a partial file; it is
        -- unlinked before the classified error response is sent
        let store1 := fun q => if q = filePath then leftover else store q
        let store2 := fun q => if q = filePath then false else store1 q
        ⟨⟨500, false, classifyDlError emsg stderr, none, none, none, none, some stderr⟩,
         store2, 1, 0⟩
      | .ok _ _ =>
        -- lines 521-556: conversion succeeded, the artifact is in place;
        -- then the metadata subprocess runs
        let store1 := fun q => if q = filePath then true else store q
        match metaRes with
        | .err _ _ =>
          ⟨⟨200, true,
            "Audio downloaded and converted successfully, but metadata extraction failed.",
            some pubUrl, some "Downloaded Track (Metadata N/A)", some "Unknown",
            none, none⟩, store1, 1, 1⟩
        | .ok out _ =>
          match parse out with
          | some md =>
            ⟨⟨200, true, "Audio downloaded and converted successfully!", some pubUrl,
              some md.title, some (artistOf md), thumbOf md, none⟩, store1, 1, 1⟩
          | none =>
            ⟨⟨500, false, "Failed to parse metadata after download.",
              none, none, none, none, none⟩, store1, 1, 1⟩

/- ### POST /download-mp3, src/unnamed/part_000 lines 153-329 (Firebase variant) -/

/-- The temporary working directory `path.join(__dirname, 'audio_temp')` of
the part_000 handler. -/
def audioTempDir : String := "audio_temp"

/-- The part_000 local staging path `path.join(audioDir, localOutputFileName)`. -/
def p0LocalPath (url : String) : String := audioTempDir ++ "/" ++ dlFileName url

/-- The part_000 Firebase Storage object path `audio/${localOutputFileName}`. -/
def p0StoragePath (url : String) : String := "audio/" ++ dlFileName url

/-- Result of one part_000 handler run: response, final local staging
directory state, final remote-store state, subprocess counts. -/
structure P0DlOut where
  resp : DlResp
  localStore : String → Bool
  remoteStore : String → Bool
  convInv : Nat
  metaInv : Nat

/-- Shallow embedding of the POST /download-mp3 handler of
src/unnamed/part_000 (lines 153-329).  Extra oracles relative to
`downloadHandler`: `firebaseInit` is the module-scope
`firebaseAdminInitialized` flag; `checkOutcome` is the result of the
`fileRef.exists()` try-block (`none` models a thrown `firebaseCheckError`,
in which case the code falls through to a fresh download); `signedUrl` is
what `getSignedUrl` returns; `uploadRes` is the upload try-block outcome
(`Except.error msg` models `uploadError`). -/
def downloadHandlerP0 (firebaseInit : Bool) (urlField : Option String)
    (localStore remoteStore : String → Bool) (checkOutcome : Option Bool)
    (signedUrl : String) (convRes : ExecOut) (leftover : Bool)
    (uploadRes : Except String String) (metaRes : ExecOut)
    (parse : String → Option MetaJson) : P0DlOut :=
  if !firebaseInit then
    -- lines 158-160: this guard precedes the missing-url guard
    ⟨⟨500, false,
      "Firebase Admin SDK is not initialized. Cannot process download and upload to storage.",
      none, none, none, none, none⟩, localStore, remoteStore, 0, 0⟩
  else
    match urlField with
    | none =>
      ⟨⟨400, false, "Source URL is required for download.", none, none, none, none, none⟩,
       localStore, remoteStore, 0, 0⟩
    | some url =>
      if checkOutcome = some true then
        -- lines 177-215: object already in Firebase Storage; serve its
        -- signed URL, running only the metadata subprocess
        match metaRes with
        | .err _ _ =>
          ⟨⟨200, true, "Audio already processed and available.", some signedUrl,
            some ("Previously Downloaded Track (ID: " ++ (md5Hex url).take 8 ++ ")"),
            some "Unknown", none, none⟩, localStore, remoteStore, 0, 1⟩
        | .ok out _ =>
          match parse out with
          | some md =>
            ⟨⟨200, true, "Audio already processed and available.", some signedUrl,
              some md.title, some (artistOf md), thumbOf md, none⟩,
             localStore, remoteStore, 0, 1⟩
          | none =>
            ⟨⟨500, false, "Failed to parse metadata for existing file from Firebase Storage.",
              none, none, none, none, none⟩, localStore, remoteStore, 0, 1⟩
      else
        -- checkOutcome `some false` (object absent) or `none` (check threw,
        -- lines 216-220): proceed with download and conversion
        match convRes with
        | .err emsg stderr =>
          -- lines 228-255: cleanup of the partial local file, then the
          -- classified error (same classification chain as server.js)
          let ls1 := fun q => if q = p0LocalPath url then leftover else localStore q
          let ls2 := fun q => if q = p0LocalPath url then false else ls1 q
          ⟨⟨500, false, classifyDlError emsg stderr, none, none, none, none, some stderr⟩,
           ls2, remoteStore, 1, 0⟩
        | .ok _ _ =>
          let ls1 := fun q => if q = p0LocalPath url then true else localStore q
          match uploadRes with
          | .error umsg =>
            -- lines 290-298: upload failed; local file cleaned up
            let ls2 := fun q => if q = p0LocalPath url then false else ls1 q
            ⟨⟨500, false, "Failed to upload audio to cloud storage: " ++ umsg,
              none, none, none, none, none⟩, ls2, remoteStore, 1, 0⟩
          | .ok upUrl =>
            -- lines 264-288: uploaded to Firebase Storage, local file removed
            let rs1 := fun q => if q = p0StoragePath url then true else remoteStore q
            let ls2 := fun q => if q = p0LocalPath url then false else ls1 q
            match metaRes with
            | .err _ _ =>
              ⟨⟨200, true, "Audio downloaded, uploaded, but metadata extraction failed.",
                some upUrl, some "Downloaded Track (Metadata N/A)", some "Unknown",
                none, none⟩, ls2, rs1, 1, 1⟩
            | .ok out _ =>
              match parse out with
              | some md =>
                ⟨⟨200, true, "Audio downloaded, converted, and uploaded to Firebase Storage!",
                  some upUrl, some md.title, some (artistOf md), thumbOf md, none⟩,
                 ls2, rs1, 1, 1⟩
              | none =>
                ⟨⟨500, false, "Failed to parse metadata after download and upload.",
                  none, none, none, none, none⟩, ls2, rs1, 1, 1⟩

/- ### GET /search — error classification shared by the SoundCloud variants
(src/server.js lines 307-326, src/unnamed/part_000 lines 94-113) -/

/-- First-match-wins classification of a failed search extractor run. -/
def classifySearchError (emsg stderr : String) : String :=
  if strContains stderr "No entries found" then
    "No songs found on SoundCloud for this query. Try a different name."
  else if strContains stderr "Sign in to confirm you\x27re not a bot"
      || strContains stderr "Please log in" then
    "SoundCloud search blocked (bot detection/login required)."
  else if strContains stderr "Unable to extract" || strContains stderr "ERROR" then
    "Could not process search results from SoundCloud. It might be a temporary issue or content restrictions."
  else if strContains stderr "timed out" then
    "SoundCloud search timed out. The server might be too slow or network issues."
  else if strContains stderr "no such option" then
    "An unsupported yt-dlp option was used. Please check backend logs or update yt-dlp."
  else if strContains stderr "RateLimitExceeded" then
    "SoundCloud rate limit exceeded. Please try again later."
  else
    "Failed to perform search: " ++ emsg

/- ### GET /search, src/server.js lines 50-111 (YouTube variant) -/

/-- One entry of the yt-dlp flat-playlist search result consumed by the
YouTube variant. -/
structure AEntry where
  url : Option String
  title : String
  uploader : Option String
  channel : Option String
  webpageUrl : String
  id : String
  thumbnail : Option String

/-- One formatted YouTube search result. -/
structure ARes where
  title : String
  artist : String
  url : String
  youtubeId : String
  thumbnail : String
deriving DecidableEq

/-- The filter of lines 78-85: `entry.url` truthy and a YouTube video URL. -/
def isValidA (e : AEntry) : Bool :=
  jsTruthy e.url
    && (strContains (e.url.getD "") "youtube.com/watch"
        || strContains (e.url.getD "") "youtu.be/")

/-- The mapping of lines 86-92. -/
def toARes (e : AEntry) : ARes :=
  ⟨e.title, jsOrStr e.uploader (jsOrStr e.channel "Unknown"), e.webpageUrl, e.id,
   jsOrStr e.thumbnail ("https://i.ytimg.com/vi/" ++ e.id ++ "/hqdefault.jpg")⟩

/-- A /search response of the YouTube variant. -/
structure SearchAOut where
  status : Nat
  success : Bool
  message : Option String
  results : List ARes

/-- The formatted result list of lines 77-93 (filter, map, `.slice(0, 15)`). -/
def formatA (entries : Option (List AEntry)) : List ARes :=
  (((entries.getD []).filter isValidA).map toARes).take 15

/-- Shallow embedding of the GET /search handler of src/server.js lines
50-111.  `extractorRes` models the awaited `youtubeDl(...)` call:
`Except.error m` is a rejected promise with `error.message = m`;
`Except.ok entries` a resolved one whose `.entries` field is `entries`
(`none` when the field is missing). -/
def searchA (q : String) (extractorRes : Except String (Option (List AEntry))) :
    SearchAOut :=
  if q = "" then ⟨400, false, some "Search query is required.", []⟩
  else
    match extractorRes with
    | .error m => ⟨500, false, some (jsOrStr (some m) "Failed to perform search."), []⟩
    | .ok entries =>
      let formatted := formatA entries
      if 0 < formatted.length then ⟨200, true, none, formatted⟩
      else ⟨200, false, some "No relevant video results found.", []⟩

/- ### GET /search, src/server.js lines 294-425 (SoundCloud variant with
fallback search) -/

/-- One formatted SoundCloud search result of the server.js variant. -/
structure BRes where
  title : String
  artist : String
  url : String
  thumbnail : Option String
deriving DecidableEq

/-- Per-line processing of the loop at lines 339-361: skip blank lines and
unparsable JSON; keep entries whose `extractor_key` is truthy and contains
`'Soundcloud'`. -/
def formatBLine (parse : String → Option MetaJson) (line : String) : Option BRes :=
  if jsTrim line = "" then none
  else
    match parse line with
    | none => none
    | some md =>
      if jsTruthy md.extractorKey
          && strContains (md.extractorKey.getD "") "Soundcloud" then
        some ⟨md.title, artistOf md, md.webpageUrl, thumbOf md⟩
      else none

/-- The formatted results accumulated from the raw output lines. -/
def formatB (parse : String → Option MetaJson) (raw : List String) : List BRes :=
  raw.filterMap (formatBLine parse)

/-- A /search response of the SoundCloud server.js variant, with the number
of extractor subprocess invocations that ran. -/
structure SearchBOut where
  status : Nat
  success : Bool
  message : Option String
  results : List BRes
  invocations : Nat
deriving DecidableEq

/-- The shared tail of the handler (lines 406-418 and 404-410 inside the
fallback callback): empty-after-filtering yields a 200 soft failure. -/
def searchBTail (raw : List String) (formatted : List BRes) (inv : Nat) :
    SearchBOut :=
  if formatted.length = 0 ∧ 0 < raw.length then
    ⟨200, false, some "No relevant SoundCloud songs found. Try a more specific query.",
     [], inv⟩
  else ⟨200, true, none, formatted, inv⟩

/-- Shallow embedding of the GET /search handler of src/server.js lines
294-425.  `primary` is the `scsearch:` exec outcome; `fallbackRes` the
fallback direct-URL exec outcome, consulted only when the primary yields at
most one formatted result (lines 366-412). -/
def searchB (q : String) (primary fallbackRes : ExecOut)
    (parse : String → Option MetaJson) : SearchBOut :=
  if q = "" then ⟨400, false, some "Search query is required.", [], 0⟩
  else
    match primary with
    | .err m st => ⟨500, false, some (classifySearchError m st), [], 1⟩
    | .ok stdout _ =>
      let raw := jsSplitNl (jsTrim stdout)
      let formatted := formatB parse raw
      if formatted.length ≤ 1 then
        match fallbackRes with
        | .err _ _ => searchBTail raw formatted 2
        | .ok fbOut _ =>
          if jsTrim fbOut = "" then searchBTail raw formatted 2
          else
            let fbFmt := formatB parse (jsSplitNl (jsTrim fbOut))
            if formatted.length < fbFmt.length then ⟨200, true, none, fbFmt, 2⟩
            else searchBTail raw formatted 2
      else searchBTail raw formatted 1

/- ### GET /search, src/unnamed/part_000 lines 74-145 (cached variant) -/

/-- One parsed line of the part_000 search output (`JSON.parse(line)`
succeeded); fields read at lines 124-130. -/
structure P0Entry where
  id : String
  title : String
  url : String
  artist : Option String
  uploader : Option String
  channel : Option String
  thumbnail : Option String

/-- One formatted part_000 search result. -/
structure P0Res where
  id : String
  title : String
  url : String
  artist : String
  thumbnail : String
deriving DecidableEq

/-- The mapping of lines 124-130 (artist chain starts at `data.artist`;
thumbnail falls back to the placehold.co URL). -/
def toP0Res (d : P0Entry) : P0Res :=
  ⟨d.id, d.title, d.url,
   jsOrStr d.artist (jsOrStr d.uploader (jsOrStr d.channel "Unknown")),
   jsOrStr d.thumbnail "https://placehold.co/60x60/333/FFF?text=🎧"⟩

/-- Lines 120-135: split stdout on newlines, drop blank lines, parse each
line, drop unparsable ones. -/
def formatP0 (parse : String → Option P0Entry) (stdout : String) : List P0Res :=
  ((jsSplitNl stdout).filter (fun l => jsTrim l != "")).filterMap
    (fun l => (parse l).map toP0Res)

/-- The NodeCache `stdTTL` of line 41, in seconds. -/
def cacheTTL : Nat := 3600

/-- The literal cache key of line 80: `search_${query}`, no normalization. -/
def searchCacheKey (q : String) : String := "search_" ++ q

/-- The search cache: key to cached value plus the time it was stored. -/
def SearchCache : Type := String → Option (List P0Res × Nat)

/-- NodeCache `get` with `stdTTL`: a hit while at most `cacheTTL` seconds
old (NodeCache expires an entry strictly after its expiry instant; time is
modelled in whole seconds; the expired-entry deletion NodeCache performs on
`get` is dropped, which no theorem here observes since a later `set`
overwrites the slot). -/
def cacheGet (cache : SearchCache) (now : Nat) (k : String) :
    Option (List P0Res) :=
  match cache k with
  | none => none
  | some (v, t) => if now ≤ t + cacheTTL then some v else none

/-- NodeCache `set`: stores the value stamped with the current time. -/
def cacheSet (cache : SearchCache) (now : Nat) (k : String)
    (v : List P0Res) : SearchCache :=
  fun q => if q = k then some (v, now) else cache q

/-- A part_000 /search response, the cache state after the request and the
number of extractor subprocess invocations. -/
structure P0SearchOut where
  status : Nat
  success : Bool
  message : Option String
  results : List P0Res
  cache : SearchCache
  invocations : Nat

/-- Shallow embedding of the GET /search handler of src/unnamed/part_000
lines 74-145: cache consultation at lines 80-86, extractor invocation and
`searchCache.set` at lines 90-138. -/
def searchP0 (cache : SearchCache) (now : Nat) (q : String) (ex : ExecOut)
    (parse : String → Option P0Entry) : P0SearchOut :=
  if q = "" then ⟨400, false, some "Search query is required.", [], cache, 0⟩
  else
    match cacheGet cache now (searchCacheKey q) with
    | some v => ⟨200, true, none, v, cache, 0⟩
    | none =>
      match ex with
      | .err m st => ⟨500, false, some (classifySearchError m st), [], cache, 1⟩
      | .ok out _ =>
        let results := formatP0 parse out
        ⟨200, true, none, results, cacheSet cache now (searchCacheKey q) results, 1⟩

/- ### Interleaving model of concurrent POST /download-mp3 requests

Node serializes JavaScript execution, so each handler's synchronous prefix
(the `fs.existsSync(outputFilePath)` check immediately followed by the
`exec` spawn, src/server.js lines 449 and 491) runs atomically, while the
converter's completion callback runs later as a separate event-loop turn.
Two concurrent requests for the same url share one fingerprint and hence
one target path; the model tracks that single artifact slot, the number of
converter invocations, and each request's progress and response.  Neither
server variant keeps any in-flight-job registry, so this model is the whole
synchronization structure of the code.  Conversions are assumed to succeed
(the claim's happy path), and the artifact becomes visible at completion. -/

/-- Which response branch a modelled request was answered from. -/
inductive DlBranch where
  | downloaded
  | already
deriving DecidableEq

/-- Global state of the two-request interleaving: the artifact slot for the
shared fingerprint, the converter invocation count, each request's program
counter (0 = synchronous prefix not yet run, 1 = converter in flight,
2 = responded) and each request's response. -/
structure Coal2State where
  artifact : Bool
  invocations : Nat
  pcA : Nat
  pcB : Nat
  respA : Option (Bool × DlBranch)
  respB : Option (Bool × DlBranch)
deriving DecidableEq

/-- One scheduler step: run the next enabled phase of request `B?`
(`false` = request A, `true` = request B).  Phase 0 is the atomic
existsSync-check-then-spawn prefix; phase 1 is the successful converter
callback, which publishes the artifact and sends the success response. -/
def coalStep (s : Coal2State) (isB : Bool) : Coal2State :=
  let pc := if isB then s.pcB else s.pcA
  match pc with
  | 0 =>
    if s.artifact then
      -- exists short-circuit: respond from the already-processed branch
      if isB then { s with pcB := 2, respB := some (true, DlBranch.already) }
      else { s with pcA := 2, respA := some (true, DlBranch.already) }
    else
      -- no artifact and no job ledger to consult: spawn a converter
      if isB then { s with pcB := 1, invocations := s.invocations + 1 }
      else { s with pcA := 1, invocations := s.invocations + 1 }
  | 1 =>
    if isB then
      { s with artifact := true, pcB := 2, respB := some (true, DlBranch.downloaded) }
    else
      { s with artifact := true, pcA := 2, respA := some (true, DlBranch.downloaded) }
  | _ => s

/-- Initial state: no artifact stored, no converter run, neither request
started. -/
def coalInit : Coal2State := ⟨false, 0, 0, 0, none, none⟩

/-- Run a schedule (a list of scheduler choices) from the initial state. -/
def coalRun (sched : List Bool) : Coal2State := sched.foldl coalStep coalInit

/- ### Generic facts about the fingerprint and the derived paths -/

theorem leBytes_length (n x : Nat) : (leBytes n x).length = n := by
  induction n generalizing x with
  | zero => rfl
  | succ n ih => simp [leBytes, ih]

theorem hexOfBytes_length (bs : List Nat) :
    (hexOfBytes bs).length = 2 * bs.length := by
  induction bs with
  | nil => rfl
  | cons b bs ih => simp [hexOfBytes, ih]; ring

theorem md5Digest_length (s : String) : (md5Digest s).length = 16 := by
  unfold md5Digest
  simp [leBytes_length]

/-- The fingerprint is always exactly 32 characters long. -/
theorem md5Hex_length (s : String) : (md5Hex s).length = 32 := by
  show (hexOfBytes (md5Digest s)).length = 32
  rw [hexOfBytes_length, md5Digest_length]

theorem hexDigit_mem (n : Nat) : hexDigit n ∈ hexChars := by
  unfold hexDigit
  have h : n % 16 < 16 := Nat.mod_lt _ (by norm_num)
  interval_cases hn : n % 16 <;> decide

theorem hexOfBytes_mem {c : Char} {bs : List Nat} (h : c ∈ hexOfBytes bs) :
    c ∈ hexChars := by
  induction bs with
  | nil => cases h
  | cons b bs ih =>
    simp only [hexOfBytes, List.mem_cons] at h
    rcases h with h | h | h
    · exact h ▸ hexDigit_mem _
    · exact h ▸ hexDigit_mem _
    · exact ih h

/-- Every character of the fingerprint is a lowercase hex digit. -/
theorem md5Hex_chars (s : String) : ∀ c ∈ (md5Hex s).data, c ∈ hexChars :=
  fun _ h => hexOfBytes_mem h

/-- A path is inside directory `dir` when it is `dir`, a slash, and a
single well-formed filename component: nonempty, slash-free, and neither
`.` nor `..` — so it can neither name the directory itself nor escape it. -/
def insideDir (dir p : String) : Prop :=
  ∃ f : String, p = dir ++ "/" ++ f ∧ f ≠ "" ∧ (∀ c ∈ f.data, c ≠ '/') ∧
    f ≠ "." ∧ f ≠ ".."

theorem dlFileName_data (url : String) :
    (dlFileName url).data = (md5Hex url).data ++ ".mp3".data := rfl

theorem hexChars_no_slash {c : Char} (h : c ∈ hexChars) : c ≠ '/' := by
  revert c
  decide

theorem dlFileName_length (url : String) : (dlFileName url).length = 36 := by
  show (dlFileName url).data.length = 36
  rw [dlFileName_data, List.length_append]
  have h := md5Hex_length url
  simp only [String.length] at h
  rw [h]
  rfl

theorem dlFileName_no_slash (url : String) :
    ∀ c ∈ (dlFileName url).data, c ≠ '/' := by
  intro c hc
  rw [dlFileName_data, List.mem_append] at hc
  rcases hc with hc | hc
  · exact hexChars_no_slash (md5Hex_chars url c hc)
  · have he : (".mp3" : String).data = ['.', 'm', 'p', '3'] := rfl
    rw [he] at hc
    fin_cases hc <;> decide

/-- The filename component derived from the fingerprint keeps every
converter target inside the working directory, whatever the url. -/
theorem dlFileName_insideDir (dir url : String) :
    insideDir dir (dir ++ "/" ++ dlFileName url) := by
  refine ⟨dlFileName url, rfl, ?_, dlFileName_no_slash url, ?_, ?_⟩
  · intro h
    have h36 := dlFileName_length url
    rw [h] at h36
    simp [String.length] at h36
  · intro h
    have h36 := dlFileName_length url
    rw [h] at h36
    simp [String.length] at h36
  · intro h
    have h36 := dlFileName_length url
    rw [h] at h36
    simp [String.length] at h36

/-- The fingerprint-derived target path is never the empty string. -/
theorem dlPath_ne_empty (url : String) : dlPath url ≠ "" := by
  intro h
  have : (dlPath url).data = [] := by rw [h]
  have hd : (dlPath url).data
      = audioDir.data ++ "/".data ++ (dlFileName url).data := by
    show (audioDir ++ "/" ++ dlFileName url).data = _
    simp
  rw [hd] at this
  simp at this

theorem splitNlChars_ne_nil (l : List Char) : splitNlChars l ≠ [] := by
  cases l with
  | nil => simp [splitNlChars]
  | cons c t =>
    simp only [splitNlChars]
    cases splitNlChars t with
    | nil => simp
    | cons h r =>
      by_cases hc : c = '\n' <;> simp [hc]

theorem jsSplitNl_ne_nil (s : String) : jsSplitNl s ≠ [] := by
  unfold jsSplitNl
  simp [splitNlChars_ne_nil]

/- ### Claim C9: the fingerprint function -/

/-- C9: the fingerprint `crypto.createHash('md5').update(url).digest('hex')`
is a pure total Lean function; equal locators yield equal fingerprints; the
output is always exactly 32 characters, all lowercase hex digits — hence
safe as a filename component and as a map key, with no error path. -/
theorem c9_fingerprint_deterministic_fixed_width_hex (a b : String) :
    (a = b → md5Hex a = md5Hex b) ∧ (md5Hex a).length = 32 ∧
      ∀ c ∈ (md5Hex a).data, c ∈ hexChars :=
  ⟨fun h => h ▸ rfl, md5Hex_length a, md5Hex_chars a⟩

/-- Witness for C9 at the concrete locator `"https://soundcloud.com/a/b"`. -/
theorem c9_fingerprint_witness :
    md5Hex "https://soundcloud.com/a/b" = md5Hex "https://soundcloud.com/a/b" ∧
      (md5Hex "https://soundcloud.com/a/b").length = 32 ∧
      ∀ c ∈ (md5Hex "https://soundcloud.com/a/b").data, c ∈ hexChars :=
  ⟨(c9_fingerprint_deterministic_fixed_width_hex _ _).1 rfl,
   (c9_fingerprint_deterministic_fixed_width_hex "https://soundcloud.com/a/b" "").2.1,
   (c9_fingerprint_deterministic_fixed_width_hex "https://soundcloud.com/a/b" "").2.2⟩

/- ### Claim C7: all filesystem effects at fingerprint-derived paths -/

/-- C7: whatever the url (including adversarial strings), every filesystem
write or delete performed by the download handlers happens at the single
fingerprint-derived path, and that path lies inside the dedicated working
directory: the filename component is hex-digest characters plus `.mp3`,
never raw user input.  Stated for both the server.js handler (working
directory `audio`) and the part_000 handler (staging directory
`audio_temp`). -/
theorem c7_fs_effects_inside_working_dir
    (host url signedUrl : String) (store localStore remoteStore : String → Bool)
    (convRes metaRes : ExecOut) (leftover : Bool)
    (parse : String → Option MetaJson) (checkOutcome : Option Bool)
    (uploadRes : Except String String) :
    (∀ q, q ≠ dlPath url →
      (downloadHandler host (some url) store convRes leftover metaRes parse).store q
        = store q)
    ∧ insideDir audioDir (dlPath url)
    ∧ (∀ q, q ≠ p0LocalPath url →
      (downloadHandlerP0 true (some url) localStore remoteStore checkOutcome
        signedUrl convRes leftover uploadRes metaRes parse).localStore q
        = localStore q)
    ∧ insideDir audioTempDir (p0LocalPath url) := by
  refine ⟨?_, dlFileName_insideDir audioDir url, ?_, dlFileName_insideDir audioTempDir url⟩
  · intro q hq
    unfold downloadHandler
    by_cases hs : store (dlPath url) <;>
      cases convRes <;> cases metaRes <;>
      simp [hs, hq] <;> split <;> simp [hq]
  · intro q hq
    unfold downloadHandlerP0
    by_cases hc : checkOutcome = some true <;>
      cases convRes <;> cases uploadRes <;> cases metaRes <;>
      simp [hc, hq] <;> split <;> simp [hq]

/-- Witness for C7: at a concrete request, a path different from the
derived target (here the empty path) is untouched, and the derived target
is inside the working directory. -/
theorem c7_witness :
    (downloadHandler "h" (some "u") (fun _ => false) (ExecOut.ok "" "") false
      (ExecOut.ok "" "") (fun _ => none)).store "" = false
    ∧ insideDir audioDir (dlPath "u") :=
  ⟨(c7_fs_effects_inside_working_dir "h" "u" "" (fun _ => false) (fun _ => false)
      (fun _ => false) (ExecOut.ok "" "") (ExecOut.ok "" "") false (fun _ => none)
      none (Except.ok "")).1 "" (Ne.symm (dlPath_ne_empty "u")),
   (c7_fs_effects_inside_working_dir "h" "u" "" (fun _ => false) (fun _ => false)
      (fun _ => false) (ExecOut.ok "" "") (ExecOut.ok "" "") false (fun _ => none)
      none (Except.ok "")).2.1⟩

/- ### Claim C3: partial output removed before the error response -/

/-- C3: when the converter exec reports an error, the handler's fs state at
the moment the 500 response is sent has no file at the fingerprint-derived
target path (the unlink of lines 494-497 runs before `res.status(500)`),
whether or not the failed subprocess left partial output there. -/
theorem c3_no_partial_artifact_on_error
    (host url emsg stderr : String) (store : String → Bool) (leftover : Bool)
    (metaRes : ExecOut) (parse : String → Option MetaJson)
    (hstore : store (dlPath url) = false) :
    let r := downloadHandler host (some url) store (ExecOut.err emsg stderr)
      leftover metaRes parse
    r.store (dlPath url) = false ∧ r.resp.status = 500 ∧
      r.resp.success = false ∧ r.resp.message = classifyDlError emsg stderr ∧
      r.convInv = 1 := by
  simp [downloadHandler, hstore]

/-- Witness for C3 at a concrete failing request that left partial output. -/
theorem c3_witness :
    let r := downloadHandler "h" (some "u") (fun _ => false)
      (ExecOut.err "exit 1" "some stderr") true (ExecOut.ok "" "") (fun _ => none)
    r.store (dlPath "u") = false ∧ r.resp.status = 500 ∧
      r.resp.success = false ∧ r.resp.message = classifyDlError "exit 1" "some stderr" ∧
      r.convInv = 1 :=
  c3_no_partial_artifact_on_error "h" "u" "exit 1" "some stderr"
    (fun _ => false) true (ExecOut.ok "" "") (fun _ => none) rfl

/- ### Claim C4: classification of "Private video" diagnostics -/

/-- C4 counterexample: with converter stderr exactly `"Private video"` the
handler does produce the SourceUnavailable message, but the response status
is 500, not a 4xx status; and a stderr containing an earlier-matching
login signature alongside `"Private video"` is not classified as
SourceUnavailable at all. -/
theorem c4_counterexample :
    let r := downloadHandler "h" (some "u") (fun _ => false)
      (ExecOut.err "exit 1" "Private video") false (ExecOut.ok "" "") (fun _ => none)
    let r2 := downloadHandler "h" (some "u") (fun _ => false)
      (ExecOut.err "exit 1" "Please log in: Private video") false
      (ExecOut.ok "" "") (fun _ => none)
    r.resp.message = "Track not found, unavailable, or is private." ∧
      r.resp.status = 500 ∧ ¬(400 ≤ r.resp.status ∧ r.resp.status < 500) ∧
      r2.resp.message
        = "Download blocked by source website (bot detection/login required)." := by
  exact ⟨by decide, by decide, by decide, by decide⟩

/-- C4 amended: when the converter stderr contains `"Private video"` and no
earlier signature in the classification chain (bot detection / login)
matches, the response carries the message
`'Track not found, unavailable, or is private.'` — but with HTTP status
500, not 4xx: every classified converter failure is sent with
`res.status(500)`. -/
theorem c4_amended_private_video_message_but_500
    (host url emsg stderr : String) (store : String → Bool) (leftover : Bool)
    (metaRes : ExecOut) (parse : String → Option MetaJson)
    (hstore : store (dlPath url) = false)
    (h1 : strContains stderr "Private video" = true)
    (h2 : strContains stderr "Sign in to confirm you\x27re not a bot" = false)
    (h3 : strContains stderr "Please log in" = false) :
    let r := downloadHandler host (some url) store (ExecOut.err emsg stderr)
      leftover metaRes parse
    r.resp.message = "Track not found, unavailable, or is private." ∧
      r.resp.status = 500 ∧ r.resp.success = false := by
  simp [downloadHandler, hstore, classifyDlError, h1, h2, h3]

/-- Witness for the amended C4 at stderr `"ERROR: Private video"`. -/
theorem c4_amended_witness :
    let r := downloadHandler "h" (some "u") (fun _ => false)
      (ExecOut.err "exit 1" "ERROR: Private video") false (ExecOut.ok "" "")
      (fun _ => none)
    r.resp.message = "Track not found, unavailable, or is private." ∧
      r.resp.status = 500 ∧ r.resp.success = false :=
  c4_amended_private_video_message_but_500 "h" "u" "exit 1" "ERROR: Private video"
    (fun _ => false) false (ExecOut.ok "" "") (fun _ => none) rfl
    (by decide) (by decide) (by decide)

/- ### Claim C2: cached-artifact short-circuit -/

/-- C2 counterexample: with the artifact already present, a request whose
metadata subprocess succeeds but emits unparsable JSON is answered with a
500 `success:false` response and no artifact URL — not with success — even
though the converter is (as claimed) not invoked. -/
theorem c2_counterexample :
    let r := downloadHandler "h" (some "u") (fun _ => true) (ExecOut.ok "" "")
      false (ExecOut.ok "not json" "") (fun _ => none)
    r.convInv = 0 ∧ r.resp.success = false ∧ r.resp.status = 500 ∧
      r.resp.audioUrl = none ∧
      r.resp.message = "Failed to parse metadata for existing file." := by
  exact ⟨rfl, rfl, rfl, rfl, rfl⟩

/-- C2 amended: when the artifact named by the url's fingerprint already
exists in the store (no in-memory state is consulted, so this includes the
after-restart case), the handler never invokes the converter and leaves the
store untouched; it replies success with the stored artifact's URL both
when the metadata subprocess fails and when its output parses — but when
the metadata subprocess succeeds with unparsable output the reply is a 500
failure (still without invoking the converter). -/
theorem c2_amended_cache_hit_no_reconversion
    (host url : String) (store : String → Bool) (convRes : ExecOut)
    (leftover : Bool) (metaRes : ExecOut) (parse : String → Option MetaJson)
    (hstore : store (dlPath url) = true) :
    let r := downloadHandler host (some url) store convRes leftover metaRes parse
    r.convInv = 0 ∧ r.store = store ∧
      ((∃ m s, metaRes = ExecOut.err m s) →
        r.resp.success = true ∧ r.resp.status = 200 ∧
          r.resp.audioUrl = some (publicAudioUrl host url)) ∧
      (∀ out s md, metaRes = ExecOut.ok out s → parse out = some md →
        r.resp.success = true ∧ r.resp.status = 200 ∧
          r.resp.audioUrl = some (publicAudioUrl host url)) ∧
      (∀ out s, metaRes = ExecOut.ok out s → parse out = none →
        r.resp.success = false ∧ r.resp.status = 500 ∧ r.resp.audioUrl = none) := by
  cases metaRes with
  | err m s =>
    refine ⟨?_, ?_, ?_, ?_, ?_⟩ <;> simp [downloadHandler, hstore]
  | ok out s =>
    cases hp : parse out with
    | some md =>
      refine ⟨?_, ?_, ?_, ?_, ?_⟩ <;> simp [downloadHandler, hstore, hp]
    | none =>
      refine ⟨?_, ?_, ?_, ?_, ?_⟩ <;> simp [downloadHandler, hstore, hp]
      intro o s1 md ho hs1 hpm
      rw [← ho] at hpm
      rw [hp] at hpm
      exact Option.noConfusion hpm

/-- Witness for the amended C2 at a concrete request with the artifact
already stored and a failing metadata subprocess. -/
theorem c2_amended_witness :
    let r := downloadHandler "h" (some "u") (fun _ => true) (ExecOut.ok "" "")
      false (ExecOut.err "meta fail" "") (fun _ => none)
    r.convInv = 0 ∧ r.store = (fun _ => true) ∧ r.resp.success = true ∧
      r.resp.status = 200 ∧ r.resp.audioUrl = some (publicAudioUrl "h" "u") :=
  let h := c2_amended_cache_hit_no_reconversion "h" "u" (fun _ => true)
    (ExecOut.ok "" "") false (ExecOut.err "meta fail" "") (fun _ => none) rfl
  ⟨h.1, h.2.1, (h.2.2.1 ⟨"meta fail", "", rfl⟩).1, (h.2.2.1 ⟨"meta fail", "", rfl⟩).2.1,
   (h.2.2.1 ⟨"meta fail", "", rfl⟩).2.2⟩

/- ### Claim C5: metadata failure after a successful conversion -/

/-- C5: the code contradicts the claim (and its own comment `'Still success
as the file is downloaded'`) in the unparsable-output case: after a
successful conversion, a metadata subprocess that exits non-zero degrades
to a success response with placeholder metadata, but a metadata subprocess
whose output fails `JSON.parse` downgrades the whole request to a 500
`success:false` response with no artifact URL. -/
theorem c5_code_bug_metadata_parse_failure :
    (downloadHandler "h" (some "u") (fun _ => false) (ExecOut.ok "" "")
        false (ExecOut.ok "not json" "") (fun _ => none)).convInv = 1 ∧
    (downloadHandler "h" (some "u") (fun _ => false) (ExecOut.ok "" "")
        false (ExecOut.ok "not json" "") (fun _ => none)).resp.status = 500 ∧
    (downloadHandler "h" (some "u") (fun _ => false) (ExecOut.ok "" "")
        false (ExecOut.ok "not json" "") (fun _ => none)).resp.success = false ∧
    (downloadHandler "h" (some "u") (fun _ => false) (ExecOut.ok "" "")
        false (ExecOut.ok "not json" "") (fun _ => none)).resp.audioUrl = none ∧
    (downloadHandler "h" (some "u") (fun _ => false) (ExecOut.ok "" "")
        false (ExecOut.ok "not json" "") (fun _ => none)).resp.message
      = "Failed to parse metadata after download." ∧
    (downloadHandler "h" (some "u") (fun _ => false) (ExecOut.ok "" "")
        false (ExecOut.err "meta fail" "") (fun _ => none)).resp.success = true ∧
    (downloadHandler "h" (some "u") (fun _ => false) (ExecOut.ok "" "")
        false (ExecOut.err "meta fail" "") (fun _ => none)).resp.status = 200 ∧
    (downloadHandler "h" (some "u") (fun _ => false) (ExecOut.ok "" "")
        false (ExecOut.err "meta fail" "") (fun _ => none)).resp.audioUrl
      = some (publicAudioUrl "h" "u") ∧
    (downloadHandler "h" (some "u") (fun _ => false) (ExecOut.ok "" "")
        false (ExecOut.err "meta fail" "") (fun _ => none)).resp.title
      = some "Downloaded Track (Metadata N/A)" ∧
    (downloadHandler "h" (some "u") (fun _ => false) (ExecOut.ok "" "")
        false (ExecOut.err "meta fail" "") (fun _ => none)).resp.artist
      = some "Unknown" := by
  exact ⟨rfl, rfl, rfl, rfl, rfl, rfl, rfl, rfl, rfl, rfl⟩

/- ### Claim C6: the missing-url guard -/

/-- C6 counterexample: in the part_000 handler a request with no `url`
field is answered 500, not 400, whenever the Firebase Admin SDK failed to
initialize, because that guard precedes the missing-url guard (part_000
lines 158-163) — though still with zero subprocess invocations. -/
theorem c6_counterexample :
    let r := downloadHandlerP0 false none (fun _ => false) (fun _ => false)
      none "" (ExecOut.ok "" "") false (Except.ok "") (ExecOut.ok "" "")
      (fun _ => none)
    r.resp.status = 500 ∧ ¬(r.resp.status = 400) ∧ r.resp.success = false ∧
      r.convInv = 0 ∧ r.metaInv = 0 := by
  exact ⟨rfl, by decide, rfl, rfl, rfl⟩

/-- C6 amended: a request whose body lacks `url` is answered 400 with
`success:false` and the input-error message, with zero subprocess
invocations — unconditionally in the server.js handler, and in the
part_000 handler provided the Firebase Admin SDK initialized; when it did
not, part_000 answers 500 (still with zero subprocess invocations) before
ever looking at `url`. -/
theorem c6_amended_missing_url_guard
    (host signedUrl : String) (store localStore remoteStore : String → Bool)
    (convRes metaRes : ExecOut) (leftover : Bool)
    (parse : String → Option MetaJson) (checkOutcome : Option Bool)
    (uploadRes : Except String String) (urlField : Option String) :
    (let r := downloadHandler host none store convRes leftover metaRes parse
     r.resp.status = 400 ∧ r.resp.success = false ∧
       r.resp.message = "Source URL is required for download." ∧
       r.convInv = 0 ∧ r.metaInv = 0) ∧
    (let r := downloadHandlerP0 true none localStore remoteStore checkOutcome
        signedUrl convRes leftover uploadRes metaRes parse
     r.resp.status = 400 ∧ r.resp.success = false ∧
       r.resp.message = "Source URL is required for download." ∧
       r.convInv = 0 ∧ r.metaInv = 0) ∧
    (let r := downloadHandlerP0 false urlField localStore remoteStore
        checkOutcome signedUrl convRes leftover uploadRes metaRes parse
     r.resp.status = 500 ∧ r.resp.success = false ∧ r.convInv = 0 ∧
       r.metaInv = 0) := by
  exact ⟨⟨rfl, rfl, rfl, rfl, rfl⟩, ⟨rfl, rfl, rfl, rfl, rfl⟩, ⟨rfl, rfl, rfl, rfl⟩⟩

/- ### Claim C1: no request coalescing -/

/-- C1 counterexample: under the schedule in which both requests run their
synchronous existence-check-then-spawn prefix before either conversion
completes, two concurrent requests for the same url invoke the converter
twice — not exactly once as claimed. -/
theorem c1_counterexample :
    (coalRun [false, true, false, true]).invocations = 2 ∧
      ¬((coalRun [false, true, false, true]).invocations = 1) ∧
      (coalRun [false, true, false, true]).respA = some (true, DlBranch.downloaded) ∧
      (coalRun [false, true, false, true]).respB = some (true, DlBranch.downloaded) := by
  decide

/-- C1 amended: the handlers keep no per-fingerprint job registry, so each
request whose existence check runs before another request's conversion has
completed spawns its own converter; two overlapping requests for the same
url run the converter twice, and the converter runs exactly once only when
the requests are serialized, the later one then being served by the
exists short-circuit. All callers still receive `success:true` when their
conversions succeed. -/
theorem c1_amended_no_coalescing :
    (coalRun [false, true, false, true]).invocations = 2 ∧
      (coalRun [false, false, true, true]).invocations = 1 ∧
      (coalRun [false, false, true, true]).respA = some (true, DlBranch.downloaded) ∧
      (coalRun [false, false, true, true]).respB = some (true, DlBranch.already) ∧
      (coalRun [false, true, false, true]).respA = some (true, DlBranch.downloaded) ∧
      (coalRun [false, true, false, true]).respB = some (true, DlBranch.downloaded) := by
  decide

/- ### Claim C8: the search cache of src/unnamed/part_000 -/

/-- C8: for a nonempty query with no live cache entry, the first request
runs the extractor once and stores the formatted results under the literal
key `search_${q}`; a second request within the one-hour TTL runs no
extractor and returns the identical cached list; a third request at or
after expiry runs the extractor again and repopulates the cache; and the
cache key is the literal query string (injective, no normalization). -/
theorem c8_search_cache_ttl
    (cache : SearchCache) (t0 t1 t2 : Nat) (q out1 s1 out3 s3 : String)
    (ex2 : ExecOut) (parse1 parse2 parse3 : String → Option P0Entry)
    (hq : q ≠ "") (hmiss : cache (searchCacheKey q) = none)
    (h1 : t1 ≤ t0 + cacheTTL) (h2 : t0 + cacheTTL < t2) :
    let r1 := searchP0 cache t0 q (ExecOut.ok out1 s1) parse1
    let r2 := searchP0 r1.cache t1 q ex2 parse2
    let r3 := searchP0 r2.cache t2 q (ExecOut.ok out3 s3) parse3
    r1.invocations = 1 ∧ r1.success = true ∧
      r1.results = formatP0 parse1 out1 ∧
      r2.invocations = 0 ∧ r2.success = true ∧ r2.results = r1.results ∧
      r3.invocations = 1 ∧
      r3.cache (searchCacheKey q) = some (formatP0 parse3 out3, t2) ∧
      (∀ a b : String, searchCacheKey a = searchCacheKey b → a = b) := by
  have hinj : ∀ a b : String, searchCacheKey a = searchCacheKey b → a = b := by
    intro a b h
    have hd : ("search_" ++ a).data = ("search_" ++ b).data :=
      congrArg String.data h
    simp only [String.data_append] at hd
    exact String.ext (List.append_cancel_left hd)
  have hr1 : searchP0 cache t0 q (ExecOut.ok out1 s1) parse1
      = ⟨200, true, none, formatP0 parse1 out1,
          cacheSet cache t0 (searchCacheKey q) (formatP0 parse1 out1), 1⟩ := by
    simp [searchP0, cacheGet, hmiss, hq]
  have hget1 : cacheSet cache t0 (searchCacheKey q) (formatP0 parse1 out1)
      (searchCacheKey q) = some (formatP0 parse1 out1, t0) := by
    simp [cacheSet]
  have hr2 : searchP0 (cacheSet cache t0 (searchCacheKey q) (formatP0 parse1 out1))
      t1 q ex2 parse2
      = ⟨200, true, none, formatP0 parse1 out1,
          cacheSet cache t0 (searchCacheKey q) (formatP0 parse1 out1), 0⟩ := by
    simp [searchP0, cacheGet, hget1, hq, h1]
  have hr3 : searchP0 (cacheSet cache t0 (searchCacheKey q) (formatP0 parse1 out1))
      t2 q (ExecOut.ok out3 s3) parse3
      = ⟨200, true, none, formatP0 parse3 out3,
          cacheSet (cacheSet cache t0 (searchCacheKey q) (formatP0 parse1 out1))
            t2 (searchCacheKey q) (formatP0 parse3 out3), 1⟩ := by
    have hnot : ¬(t2 ≤ t0 + cacheTTL) := by omega
    simp [searchP0, cacheGet, hget1, hq, hnot]
  refine ⟨?_, ?_, ?_, ?_, ?_, ?_, ?_, ?_, hinj⟩ <;>
    simp [hr1, hr2, hr3, cacheSet]

/-- Witness for C8 at the concrete query `"daft punk"`, times 0, 1 and
3600 seconds, a first extractor run producing one parsable line and a
second (post-expiry) run producing none. -/
theorem c8_search_cache_witness :
    let pe : P0Entry := ⟨"1", "Song", "https://x", none, some "DJ", none, none⟩
    let r1 := searchP0 (fun _ => none) 0 "daft punk" (ExecOut.ok "L" "")
      (fun _ => some pe)
    let r2 := searchP0 r1.cache 1 "daft punk" (ExecOut.err "boom" "")
      (fun _ => none)
    let r3 := searchP0 r2.cache 3601 "daft punk" (ExecOut.ok "" "")
      (fun _ => none)
    r1.invocations = 1 ∧ r1.success = true ∧
      r1.results = formatP0 (fun _ => some pe) "L" ∧
      r2.invocations = 0 ∧ r2.success = true ∧ r2.results = r1.results ∧
      r3.invocations = 1 ∧
      r3.cache (searchCacheKey "daft punk")
        = some (formatP0 (fun _ => none) "", 3601) ∧
      (∀ a b : String, searchCacheKey a = searchCacheKey b → a = b) :=
  c8_search_cache_ttl (fun _ => none) 0 1 3601 "daft punk" "L" "" "" ""
    (ExecOut.err "boom" "")
    (fun _ => some ⟨"1", "Song", "https://x", none, some "DJ", none, none⟩)
    (fun _ => none) (fun _ => none)
    (by decide) rfl (by decide) (by decide)

/- ### Claim C10: empty-after-filtering search results -/

/-- C10 counterexample: in the SoundCloud server.js variant, a primary
extractor success whose one parsed line is filtered out (non-Soundcloud
extractor key) leaves the formatted list empty, which triggers the fallback
search; when the fallback yields a SoundCloud result, the response is
`success:true` with the fallback results — not the claimed
`success:false` with an empty results array. -/
theorem c10_counterexample :
    let parse : String → Option MetaJson := fun s =>
      if s = "A" then some ⟨"T1", some "U", none, "https://y", none, some "YoutubeTab"⟩
      else if s = "B" then
        some ⟨"T2", some "V", none, "https://sc", none, some "SoundcloudSearch"⟩
      else none
    let r := searchB "daft punk" (ExecOut.ok "A" "") (ExecOut.ok "B" "") parse
    formatB parse (jsSplitNl (jsTrim "A")) = [] ∧
      r.status = 200 ∧ r.success = true ∧ r.results ≠ [] ∧
      ¬(r.success = false) := by
  exact ⟨by decide, by decide, by decide, by decide, by decide⟩

/-- C10 amended: when the extractor succeeds and the formatted list is
empty after filtering, the YouTube variant answers 200 with
`success:false`, the explanatory message and an empty results array; the
SoundCloud variant first runs its fallback search (a second extractor
invocation): if the fallback produces results the response is 200
`success:true` carrying them, otherwise it is the 200 `success:false`
soft failure with the explanatory message and an empty array — never a
4xx/5xx status in either variant. -/
theorem c10_amended_empty_results_soft_failure
    (q stdout sz : String) (entries : Option (List AEntry))
    (fallbackRes : ExecOut) (parse : String → Option MetaJson)
    (hq : q ≠ "")
    (hA : formatA entries = [])
    (hB : formatB parse (jsSplitNl (jsTrim stdout)) = []) :
    (searchA q (Except.ok entries)
      = ⟨200, false, some "No relevant video results found.", []⟩) ∧
    (let r := searchB q (ExecOut.ok stdout sz) fallbackRes parse
     r.status = 200 ∧ r.invocations = 2 ∧
       (r.success = false →
         r.results = [] ∧
           r.message = some "No relevant SoundCloud songs found. Try a more specific query.") ∧
       (r.success = true → r.results ≠ [])) := by
  constructor
  · simp [searchA, hq, hA]
  · have hraw : jsSplitNl (jsTrim stdout) ≠ [] := jsSplitNl_ne_nil (jsTrim stdout)
    have hlen : 0 < (jsSplitNl (jsTrim stdout)).length := List.length_pos.mpr hraw
    have htail : searchBTail (jsSplitNl (jsTrim stdout)) [] 2
        = ⟨200, false,
            some "No relevant SoundCloud songs found. Try a more specific query.",
            [], 2⟩ := by
      simp [searchBTail, hlen]
    cases fallbackRes with
    | err m s =>
      simp [searchB, hq, hB, htail]
    | ok fbOut s =>
      by_cases hfb : jsTrim fbOut = ""
      · simp [searchB, hq, hB, htail, hfb]
      · by_cases hnonempty : 0 < (formatB parse (jsSplitNl (jsTrim fbOut))).length
        · have hne : formatB parse (jsSplitNl (jsTrim fbOut)) ≠ [] :=
            List.length_pos.mp hnonempty
          simp [searchB, hq, hB, hfb, hnonempty, hne]
        · simp [searchB, hq, hB, htail, hfb, hnonempty]

/-- Witness for the amended C10: empty YouTube entries, an all-blank
primary SoundCloud output and a failing fallback. -/
theorem c10_amended_witness :
    (searchA "x" (Except.ok none)
      = ⟨200, false, some "No relevant video results found.", []⟩) ∧
    (let r := searchB "x" (ExecOut.ok "" "") (ExecOut.err "m" "s") (fun _ => none)
     r.status = 200 ∧ r.invocations = 2 ∧
       (r.success = false →
         r.results = [] ∧
           r.message = some "No relevant SoundCloud songs found. Try a more specific query.") ∧
       (r.success = true → r.results ≠ [])) :=
  c10_amended_empty_results_soft_failure "x" "" "" none (ExecOut.err "m" "s")
    (fun _ => none) (by decide) (by decide) (by decide)
